import Mathlib

/-!
Verification of the MinuteTaker job-tracking engine (shallow embedding).

Source files embedded:
  - `src/api/apiService.ts`   : `getSocket`, `getLastJobData`, `joinJobRoom`
  - `src/pages/MinutesFrame.tsx` : the mount `useEffect` (cache resume + fetch
    chain + socket binding) and `handleNewJobCreated`.

Modelling conventions:
  - `localStorage` is modelled typed: the two keys the engine uses
    (`lastJobId`, `lastJobData`) are fields; a snapshot that is missing or
    unparseable is `none` (the source catches `JSON.parse` failures and
    returns nulls).  A storage with `quotaExceeded = true` makes `setItem`
    throw, modelled as `Except.error`.
  - The shared socket.io connection is a record of handler lists per event
    name; `s.off(ev)` with no handler argument removes every handler of that
    event, exactly as in socket.io.  Delivering an event folds the matching
    handler list over the world state.
  - React `useState` setters are modelled as functional updates of
    `FrameState`; outbound effects (`socket.emit`, `fetch`) are recorded in
    the `World` as lists of emissions / issued fetches.
  - The asynchronous fetch chain of the mount effect is split into its
    synchronous part (`mountEffect`, which records that a fetch was issued)
    and its continuation (`onFetchResult`, applied when the response or the
    failure arrives; the `.finally` clause is the trailing update).
-/

/-- `MinutesData` from `apiService.ts`. -/
structure MinutesData where
  title : String
  duration : String
  summary : String
  action_points : List String
  transcription : String
  speakers : List String
  pdf_path : Option String := none
deriving Repr, DecidableEq

/-- `JobResponse` from `apiService.ts`; also the shape of push event
payloads (which carry at least `job_id`). -/
structure JobResponse where
  status : String
  job_id : String
  minutes : Option MinutesData := none
  error : Option String := none
  timestamp : Option String := none
  pdf_path : Option String := none
deriving Repr, DecidableEq

/-- The two `localStorage` keys the engine uses, typed.  `lastJobData` is
`none` when the key is absent or the stored JSON does not parse (the source
catches the parse failure).  `quotaExceeded` makes every `setItem` throw. -/
structure Storage where
  lastJobId : Option String := none
  lastJobData : Option JobResponse := none
  quotaExceeded : Bool := false
deriving Repr, DecidableEq

/-- `localStorage.setItem('lastJobId', v)`: throws on quota. -/
def Storage.setLastJobId (st : Storage) (v : String) : Except String Storage :=
  if st.quotaExceeded then .error "QuotaExceededError"
  else .ok { st with lastJobId := some v }

/-- `localStorage.setItem('lastJobData', JSON.stringify(v))`: throws on
quota. -/
def Storage.setLastJobData (st : Storage) (v : JobResponse) : Except String Storage :=
  if st.quotaExceeded then .error "QuotaExceededError"
  else .ok { st with lastJobData := some v }

/-- `getLastJobData` from `apiService.ts`: reads both keys; a missing or
corrupt snapshot is `none`. -/
def getLastJobData (st : Storage) : Option String × Option JobResponse :=
  (st.lastJobId, st.lastJobData)

/-- React component state of `MinutesFrame` (the fields the engine owns;
layout state is out of scope). -/
structure FrameState where
  activeJobId : Option String := none
  jobData : Option JobResponse := none
  error : Option String := none
  loading : Bool := false
deriving Repr, DecidableEq

/-- The observable world: component state, `localStorage`, and the
outbound effects performed so far (socket emissions as
(event name, job id) pairs, and the job ids targeted by issued `fetch`
calls). -/
structure World where
  frame : FrameState := {}
  storage : Storage := {}
  emitted : List (String × String) := []
  fetched : List String := []
deriving Repr, DecidableEq

/-- A socket event handler, as a state transformer of the world (the
source handlers close over the React setters and `localStorage`). -/
def Handler : Type := JobResponse → World → World

/-- The shared socket.io connection: handler lists per event name.  The
`connect` and `connect_error` lists model `socket.on('connect', ...)` /
`socket.on('connect_error', ...)`. -/
structure SocketState where
  updateHandlers : List Handler := []
  completeHandlers : List Handler := []
  errorHandlers : List Handler := []
  connectHandlers : List (World → World) := []
  connectErrorHandlers : List (World → World) := []

/-- `getSocket` on first call: creates the singleton connection and
installs the two default listeners, which only `console.log` (hence are
the identity on the world). -/
def initialSocket : SocketState :=
  { connectHandlers := [fun w => w]
    connectErrorHandlers := [fun w => w] }

/-- socket.io delivering a `processing_update` event: every registered
handler runs once, in registration order. -/
def deliverUpdate (d : JobResponse) (s : SocketState) (w : World) : World :=
  s.updateHandlers.foldl (fun acc h => h d acc) w

/-- socket.io delivering a `processing_complete` event. -/
def deliverComplete (d : JobResponse) (s : SocketState) (w : World) : World :=
  s.completeHandlers.foldl (fun acc h => h d acc) w

/-- socket.io (re)connecting: the `connect` event fires every registered
`connect` handler. -/
def fireConnect (s : SocketState) (w : World) : World :=
  s.connectHandlers.foldl (fun acc h => h acc) w

/-- `joinJobRoom` from `apiService.ts`: removes every existing
`processing_update` / `processing_complete` / `processing_error` handler,
installs fresh handlers guarded by `data.job_id === jobId`, emits
`rejoin_job {job_id}`, and returns a cleanup that again removes every
handler of the three event names from whatever the socket state is when it
runs. -/
def joinJobRoom (jobId : String) (onUpdate onComplete : Option Handler)
    (s : SocketState) (w : World) :
    SocketState × World × (SocketState → SocketState) :=
  -- s.off('processing_update'); s.off('processing_complete'); s.off('processing_error')
  let s := { s with updateHandlers := [], completeHandlers := [], errorHandlers := [] }
  let s := match onUpdate with
    | some f =>
        { s with updateHandlers :=
            [fun d w => if d.job_id = jobId then f d w else w] }
    | none => s
  let s := match onComplete with
    | some f =>
        { s with completeHandlers :=
            [fun d w => if d.job_id = jobId then f d w else w] }
    | none => s
  let w := { w with emitted := w.emitted ++ [("rejoin_job", jobId)] }
  (s, w,
    fun s2 => { s2 with updateHandlers := [], completeHandlers := [], errorHandlers := [] })

/-- The `onUpdate` callback both call sites pass to `joinJobRoom`: it only
`console.log`s, leaving state unchanged. -/
def frameOnUpdate : Handler := fun _ w => w

/-- The `onComplete` callback both call sites pass to `joinJobRoom`:
`setJobData(completeData)` and a try/catch-guarded write-through of
`lastJobData` (a throwing `setItem` is swallowed and logged). -/
def frameOnComplete : Handler := fun d w =>
  let w := { w with frame := { w.frame with jobData := some d } }
  match w.storage.setLastJobData d with
  | .ok st => { w with storage := st }
  | .error _ => w

/-- `handleNewJobCreated` from `MinutesFrame.tsx`: sets the active job id,
clears the error, optionally seeds `jobData` (with a guarded snapshot
write), then performs the unguarded
`localStorage.setItem('lastJobId', jobId)` — whose failure propagates to
the caller as an exception — and finally rebinds the socket via
`joinJobRoom`. -/
def handleNewJobCreated (jobId : String) (data : Option JobResponse)
    (w : World) (s : SocketState) :
    Except String (World × SocketState × (SocketState → SocketState)) :=
  let w := { w with frame := { w.frame with activeJobId := some jobId, error := none } }
  let w := match data with
    | some d =>
        let w := { w with frame := { w.frame with jobData := some d } }
        match w.storage.setLastJobData d with
        | .ok st => { w with storage := st }
        | .error _ => w
    | none => w
  match w.storage.setLastJobId jobId with
  | .error e => .error e
  | .ok st =>
      let w := { w with storage := st }
      let (s, w, cleanup) := joinJobRoom jobId (some frameOnUpdate) (some frameOnComplete) s w
      .ok (w, s, cleanup)

/-- The synchronous part of the mount `useEffect` of `MinutesFrame`:
resume from cache, issue a fetch when a job id exists without a snapshot,
and bind socket listeners.  Returns the cleanup when a job id was found
(`undefined` otherwise). -/
def mountEffect (w : World) (s : SocketState) :
    World × SocketState × Option (SocketState → SocketState) :=
  let (jobId?, jobData?) := getLastJobData w.storage
  match jobId? with
  | none => (w, s, none)
  | some jobId =>
      let w := { w with frame := { w.frame with activeJobId := some jobId } }
      let w := match jobData? with
        | some d => { w with frame := { w.frame with jobData := some d } }
        | none =>
            let w := { w with frame := { w.frame with loading := true } }
            { w with fetched := w.fetched ++ [jobId] }
      let (s, w, cleanup) := joinJobRoom jobId (some frameOnUpdate) (some frameOnComplete) s w
      (w, s, some cleanup)

/-- The possible outcomes of the `fetch` issued by the mount effect:
`ok` is a 2xx response with parsed JSON body; `httpError` is a non-2xx
response (the chain throws `'Failed to fetch job data'`); `transportError`
is a network-level rejection. -/
inductive FetchOutcome where
  | ok (data : JobResponse)
  | httpError (status : Nat)
  | transportError
deriving Repr, DecidableEq

/-- `${data.error || 'Unknown error'}`: JS falsiness of the carried
message. -/
def errorMessageOf (d : JobResponse) : String :=
  match d.error with
  | some e => if e = "" then "Unknown error" else e
  | none => "Unknown error"

/-- The continuation of the mount effect's fetch chain
(`.then(...).catch(...).finally(...)`): a completed response with a
`minutes` payload is accepted and write-through persisted (guarded); an
error-status response sets the error banner; any other status changes
nothing; both failure paths set a fixed error message; the `finally`
clause always clears `loading`. -/
def onFetchResult (outcome : FetchOutcome) (w : World) : World :=
  let w := match outcome with
    | .ok d =>
        if d.status = "completed" ∧ d.minutes.isSome then
          let w := { w with frame := { w.frame with jobData := some d } }
          match w.storage.setLastJobData d with
          | .ok st => { w with storage := st }
          | .error _ => w
        else if d.status = "error" then
          { w with frame := { w.frame with
              error := some ("Error: " ++ errorMessageOf d) } }
        else w
    | .httpError _ =>
        { w with frame := { w.frame with
            error := some "Failed to load job data. Please try again." } }
    | .transportError =>
        { w with frame := { w.frame with
            error := some "Failed to load job data. Please try again." } }
  { w with frame := { w.frame with loading := false } }

/-! ### Concrete inputs used by counterexamples and witnesses -/

/-- A sample completed minutes payload. -/
def demoMinutes : MinutesData :=
  { title := "Weekly sync", duration := "30m", summary := "Summary"
    action_points := ["follow up"], transcription := "..."
    speakers := ["Alice", "Bob"] }

/-- A completed snapshot of job `J1`. -/
def prevSnapshot : JobResponse :=
  { status := "completed", job_id := "J1", minutes := some demoMinutes }

/-- A snapshot of job `J1` with a non-terminal status. -/
def pendingSnapshot : JobResponse :=
  { status := "processing", job_id := "J1" }

/-- A completed `processing_complete` push payload for job `J1`. -/
def completeEv : JobResponse :=
  { status := "completed", job_id := "J1", minutes := some demoMinutes }

/-- A push payload carrying the stale job id `J1`. -/
def staleEv : JobResponse :=
  { status := "processing", job_id := "J1" }

/-- A fetch response with a still-pending status. -/
def pendingResult : JobResponse :=
  { status := "processing", job_id := "J1" }

/-- A world whose cache holds a job id but no snapshot. -/
def cacheIdOnly : World :=
  { storage := { lastJobId := some "J1" } }

/-- A world whose cache holds job `J1` together with a snapshot whose
status is non-terminal. -/
def cacheWithPending : World :=
  { storage := { lastJobId := some "J1", lastJobData := some pendingSnapshot } }

/-- A world whose storage throws on every write (quota exceeded), with a
previous job fully cached. -/
def quotaWorld : World :=
  { frame := { activeJobId := some "J1", jobData := some prevSnapshot }
    storage := { lastJobId := some "J1", lastJobData := some prevSnapshot
                 quotaExceeded := true } }

/-- A world mid-load: job `J1` active, fetch outstanding. -/
def loadingWorld : World :=
  { frame := { activeJobId := some "J1", loading := true }
    storage := { lastJobId := some "J1" } }

/-- The initial payload of a freshly created job `J2`. -/
def newJobData : JobResponse :=
  { status := "completed", job_id := "J2", minutes := some demoMinutes }

/-- A world in which the previous job `J1` is fully tracked and cached. -/
def prevWorld : World :=
  { frame := { activeJobId := some "J1", jobData := some prevSnapshot }
    storage := { lastJobId := some "J1", lastJobData := some prevSnapshot } }

/-! ### Claims about `joinJobRoom` and the shared connection -/

/-- C5: `joinJobRoom` is idempotent with respect to handler registration:
a second call for the same job id (with the same callbacks) leaves the
socket exactly as one call does — at most one handler per event — and a
single delivered `processing_complete` event invokes the callback at most
once (exactly once when the id matches, never otherwise); likewise for
`processing_update`. -/
theorem joinJobRoom_idempotent (j : String) (u c : Option Handler)
    (s : SocketState) (w w1 : World) :
    (joinJobRoom j u c (joinJobRoom j u c s w).1 w1).1 = (joinJobRoom j u c s w).1 ∧
    (joinJobRoom j u c (joinJobRoom j u c s w).1 w1).1.updateHandlers.length ≤ 1 ∧
    (joinJobRoom j u c (joinJobRoom j u c s w).1 w1).1.completeHandlers.length ≤ 1 ∧
    (∀ d w2, deliverComplete d (joinJobRoom j u c (joinJobRoom j u c s w).1 w1).1 w2 =
      match c with
      | some f => if d.job_id = j then f d w2 else w2
      | none => w2) ∧
    (∀ d w2, deliverUpdate d (joinJobRoom j u c (joinJobRoom j u c s w).1 w1).1 w2 =
      match u with
      | some f => if d.job_id = j then f d w2 else w2
      | none => w2) := by
  cases u <;> cases c <;>
    exact ⟨rfl, by simp [joinJobRoom], by simp [joinJobRoom],
           fun d w2 => rfl, fun d w2 => rfl⟩

/-- C6: after the engine binds listeners for a tracked job on the
singleton connection created by `getSocket`, a reconnection fires only the
default `connect` listener, which merely logs: the world — in particular
the list of emissions — is unchanged, so no `rejoin_job` is re-emitted for
the still-active job id. -/
theorem reconnect_emits_no_rejoin (j : String) (u c : Option Handler)
    (w w1 : World) :
    fireConnect (joinJobRoom j u c initialSocket w).1 w1 = w1 := by
  cases u <;> cases c <;> rfl

/-- C9: the cleanup returned by a first `joinJobRoom a` call removes every
`processing_update` / `processing_complete` / `processing_error` handler
from the shared socket, including those a later `joinJobRoom b` installed:
after running it no push listener remains and delivered events change
nothing. -/
theorem cleanup_removes_all_handlers (a b : String)
    (u c u2 c2 : Option Handler) (s : SocketState) (w w1 : World) :
    ((joinJobRoom a u c s w).2.2
        (joinJobRoom b u2 c2 (joinJobRoom a u c s w).1 w1).1).updateHandlers = [] ∧
    ((joinJobRoom a u c s w).2.2
        (joinJobRoom b u2 c2 (joinJobRoom a u c s w).1 w1).1).completeHandlers = [] ∧
    ((joinJobRoom a u c s w).2.2
        (joinJobRoom b u2 c2 (joinJobRoom a u c s w).1 w1).1).errorHandlers = [] ∧
    (∀ d w2, deliverUpdate d
        ((joinJobRoom a u c s w).2.2
          (joinJobRoom b u2 c2 (joinJobRoom a u c s w).1 w1).1) w2 = w2) ∧
    (∀ d w2, deliverComplete d
        ((joinJobRoom a u c s w).2.2
          (joinJobRoom b u2 c2 (joinJobRoom a u c s w).1 w1).1) w2 = w2) := by
  exact ⟨rfl, rfl, rfl, fun d w2 => rfl, fun d w2 => rfl⟩

/-! ### Claims about the fetch chain -/

/-- C2 counterexample: a still-pending fetch result does NOT leave
`loading` true — the `.finally` clause clears it.  At a concrete world
mid-load, a `processing`-status result yields `loading = false`, refuting
the claim that the loading flag is not cleared by such a result. -/
theorem fetch_pending_cex :
    (onFetchResult (.ok pendingResult) loadingWorld).frame.jobData =
      loadingWorld.frame.jobData ∧
    (onFetchResult (.ok pendingResult) loadingWorld).frame.error =
      loadingWorld.frame.error ∧
    ¬ ((onFetchResult (.ok pendingResult) loadingWorld).frame.loading = true) := by
  decide

/-- C2 (amended): a fetch result whose status is neither
completed-with-payload nor `error` changes neither `jobData` nor `error`
nor the cache, but the `.finally` clause sets `loading` to `false` (it
does not remain `true`). -/
theorem fetch_pending_no_state_change (d : JobResponse) (w : World)
    (hst : ¬ (d.status = "completed" ∧ d.minutes.isSome = true))
    (he : ¬ (d.status = "error")) :
    (onFetchResult (.ok d) w).frame.jobData = w.frame.jobData ∧
    (onFetchResult (.ok d) w).frame.error = w.frame.error ∧
    (onFetchResult (.ok d) w).frame.activeJobId = w.frame.activeJobId ∧
    (onFetchResult (.ok d) w).storage = w.storage ∧
    (onFetchResult (.ok d) w).frame.loading = false := by
  simp only [onFetchResult, if_neg hst, if_neg he]
  exact ⟨trivial, trivial, trivial, trivial, trivial⟩

/-- C2 witness for `fetch_pending_no_state_change` at a concrete
still-pending result. -/
theorem fetch_pending_no_state_change_witness :
    (onFetchResult (.ok pendingResult) cacheIdOnly).frame.jobData =
      cacheIdOnly.frame.jobData ∧
    (onFetchResult (.ok pendingResult) cacheIdOnly).frame.error =
      cacheIdOnly.frame.error ∧
    (onFetchResult (.ok pendingResult) cacheIdOnly).frame.activeJobId =
      cacheIdOnly.frame.activeJobId ∧
    (onFetchResult (.ok pendingResult) cacheIdOnly).storage =
      cacheIdOnly.storage ∧
    (onFetchResult (.ok pendingResult) cacheIdOnly).frame.loading = false := by
  have h := fetch_pending_no_state_change pendingResult cacheIdOnly
    (by decide) (by decide)
  exact h

/-- C8: a failed pull — non-2xx HTTP status or transport failure — sets
`error` to a fixed non-empty message and leaves `jobData`, `activeJobId`
and the cache exactly as before the call: no partially-updated state. -/
theorem fetch_failure_preserves_state (w : World) (n : Nat) :
    ((onFetchResult (.httpError n) w).frame.jobData = w.frame.jobData ∧
     (onFetchResult (.httpError n) w).frame.activeJobId = w.frame.activeJobId ∧
     (onFetchResult (.httpError n) w).storage = w.storage ∧
     (onFetchResult (.httpError n) w).frame.error =
       some "Failed to load job data. Please try again." ∧
     "Failed to load job data. Please try again." ≠ "") ∧
    ((onFetchResult .transportError w).frame.jobData = w.frame.jobData ∧
     (onFetchResult .transportError w).frame.activeJobId = w.frame.activeJobId ∧
     (onFetchResult .transportError w).storage = w.storage ∧
     (onFetchResult .transportError w).frame.error =
       some "Failed to load job data. Please try again.") := by
  exact ⟨⟨rfl, rfl, rfl, rfl, by decide⟩, rfl, rfl, rfl, rfl⟩

/-! ### Claims about `handleNewJobCreated` and push delivery -/

/-- Characterization of a successful `handleNewJobCreated`: with a
non-throwing storage, the call returns the updated world (new active id,
cleared error, optionally seeded job data, persisted id and snapshot, one
`rejoin_job` emission), the rebound socket and the cleanup.  Shared by the
claim theorems below. -/
theorem handleNewJobCreated_ok (jobId : String) (data : Option JobResponse)
    (w : World) (s : SocketState) (hq : w.storage.quotaExceeded = false) :
    handleNewJobCreated jobId data w s = .ok
      ({ w with
          frame := { w.frame with
            activeJobId := some jobId
            error := none
            jobData := match data with | some d => some d | none => w.frame.jobData }
          storage := { w.storage with
            lastJobId := some jobId
            lastJobData := match data with
              | some d => some d
              | none => w.storage.lastJobData }
          emitted := w.emitted ++ [("rejoin_job", jobId)] },
        { s with
          updateHandlers :=
            [fun d w2 => if d.job_id = jobId then frameOnUpdate d w2 else w2]
          completeHandlers :=
            [fun d w2 => if d.job_id = jobId then frameOnComplete d w2 else w2]
          errorHandlers := [] },
        fun s2 =>
          { s2 with updateHandlers := [], completeHandlers := [], errorHandlers := [] }) := by
  cases data <;>
    simp [handleNewJobCreated, Storage.setLastJobId, Storage.setLastJobData,
      joinJobRoom, hq]

/-- C1: after `handleNewJobCreated b` succeeds, a delivered push event
(`processing_update` or `processing_complete`) carrying a different job id
`a ≠ b` alters neither `jobData` nor `error`: the installed handlers
filter on the carried id and discard mismatches. -/
theorem stale_event_discarded (a b : String) (hab : a ≠ b)
    (data : Option JobResponse) (w : World) (s : SocketState)
    (hq : w.storage.quotaExceeded = false)
    (ev : JobResponse) (hev : ev.job_id = a) :
    ∃ w1 s1 cl, handleNewJobCreated b data w s = .ok (w1, s1, cl) ∧
      (deliverUpdate ev s1 w1).frame.jobData = w1.frame.jobData ∧
      (deliverUpdate ev s1 w1).frame.error = w1.frame.error ∧
      (deliverComplete ev s1 w1).frame.jobData = w1.frame.jobData ∧
      (deliverComplete ev s1 w1).frame.error = w1.frame.error := by
  refine ⟨_, _, _, handleNewJobCreated_ok b data w s hq, ?_, ?_, ?_, ?_⟩ <;>
    simp [deliverUpdate, deliverComplete, frameOnUpdate, hev, hab]

/-- C1 witness: tracking `J2` then delivering a push event for `J1`. -/
theorem stale_event_discarded_witness :
    "J1" ≠ "J2" ∧ staleEv.job_id = "J1" ∧
    (∃ w1 s1 cl,
      handleNewJobCreated "J2" none cacheIdOnly initialSocket = .ok (w1, s1, cl) ∧
      (deliverUpdate staleEv s1 w1).frame.jobData = w1.frame.jobData ∧
      (deliverUpdate staleEv s1 w1).frame.error = w1.frame.error ∧
      (deliverComplete staleEv s1 w1).frame.jobData = w1.frame.jobData ∧
      (deliverComplete staleEv s1 w1).frame.error = w1.frame.error) :=
  ⟨by decide, rfl,
    stale_event_discarded "J1" "J2" (by decide) none cacheIdOnly initialSocket
      rfl staleEv rfl⟩

/-- C3: the code evaluated at the failing input — tracking a new job while
every storage write throws (quota exceeded).  The guarded snapshot write
is swallowed, but the bare `localStorage.setItem('lastJobId', jobId)`
propagates the exception to the caller instead of swallowing it. -/
theorem trackNewJob_persist_throws :
    handleNewJobCreated "J2" (some newJobData) quotaWorld initialSocket =
      .error "QuotaExceededError" := rfl

/-- C4 counterexample: resuming with a job id but no snapshot sets
`loading = true` and binds the push handlers; an accepted
`processing_complete` for that job replaces `jobData` but does NOT set
`loading` to `false` — the handler never touches the loading flag. -/
theorem push_complete_keeps_loading_cex :
    (deliverComplete completeEv (mountEffect cacheIdOnly initialSocket).2.1
        (mountEffect cacheIdOnly initialSocket).1).frame.jobData = some completeEv ∧
    ¬ ((deliverComplete completeEv (mountEffect cacheIdOnly initialSocket).2.1
        (mountEffect cacheIdOnly initialSocket).1).frame.loading = false) := by
  decide

/-- C4 (amended): an accepted `processing_complete` for the active job id
replaces `jobData` wholesale with the event payload and write-through
persists it to the cache, but leaves the `loading` flag unchanged. -/
theorem push_complete_accepted (b : String) (data : Option JobResponse)
    (w : World) (s : SocketState) (hq : w.storage.quotaExceeded = false)
    (ev : JobResponse) (hev : ev.job_id = b) :
    ∃ w1 s1 cl, handleNewJobCreated b data w s = .ok (w1, s1, cl) ∧
      (deliverComplete ev s1 w1).frame.jobData = some ev ∧
      (deliverComplete ev s1 w1).storage.lastJobData = some ev ∧
      (deliverComplete ev s1 w1).frame.loading = w.frame.loading := by
  refine ⟨_, _, _, handleNewJobCreated_ok b data w s hq, ?_, ?_, ?_⟩ <;>
    cases data <;>
      simp [deliverComplete, frameOnComplete, Storage.setLastJobData, hev, hq]

/-- C4 witness: while `loading` is true, a matching completion for the
active job `J1` is accepted. -/
theorem push_complete_accepted_witness :
    loadingWorld.storage.quotaExceeded = false ∧ completeEv.job_id = "J1" ∧
    (∃ w1 s1 cl,
      handleNewJobCreated "J1" none loadingWorld initialSocket = .ok (w1, s1, cl) ∧
      (deliverComplete completeEv s1 w1).frame.jobData = some completeEv ∧
      (deliverComplete completeEv s1 w1).storage.lastJobData = some completeEv ∧
      (deliverComplete completeEv s1 w1).frame.loading = loadingWorld.frame.loading) :=
  ⟨rfl, rfl,
    push_complete_accepted "J1" none loadingWorld initialSocket rfl completeEv rfl⟩

/-- C10: tracking a new job id with no initial snapshot persists the new
id but leaves both the in-memory `jobData` and the cached snapshot holding
the previous job's values, and issues no fetch. -/
theorem trackNewJob_without_snapshot (newId : String) (w : World)
    (s : SocketState) (hq : w.storage.quotaExceeded = false) :
    ∃ w1 s1 cl, handleNewJobCreated newId none w s = .ok (w1, s1, cl) ∧
      w1.frame.jobData = w.frame.jobData ∧
      w1.storage.lastJobData = w.storage.lastJobData ∧
      w1.storage.lastJobId = some newId ∧
      w1.fetched = w.fetched :=
  ⟨_, _, _, handleNewJobCreated_ok newId none w s hq, rfl, rfl, rfl, rfl⟩

/-- C10 witness: after tracking new job `J2` with no snapshot, the cache
pairs `lastJobId = J2` with the previous job J1's snapshot. -/
theorem trackNewJob_without_snapshot_witness :
    prevWorld.storage.quotaExceeded = false ∧
    (∃ w1 s1 cl,
      handleNewJobCreated "J2" none prevWorld initialSocket = .ok (w1, s1, cl) ∧
      w1.frame.jobData = prevWorld.frame.jobData ∧
      w1.storage.lastJobData = prevWorld.storage.lastJobData ∧
      w1.storage.lastJobId = some "J2" ∧
      w1.fetched = prevWorld.fetched) :=
  ⟨rfl, trackNewJob_without_snapshot "J2" prevWorld initialSocket rfl⟩

/-! ### Claims about resuming from the cache -/

/-- C7 counterexample: with a cached snapshot whose status is
non-terminal (`processing`), the mount effect accepts it immediately as
`jobData`, leaves `loading` false (refuting `loading = true`) and issues
no fetch — the source never inspects the snapshot's status. -/
theorem resume_nonterminal_snapshot_cex :
    (mountEffect cacheWithPending initialSocket).1.frame.jobData =
      some pendingSnapshot ∧
    ¬ ((mountEffect cacheWithPending initialSocket).1.frame.loading = true) ∧
    (mountEffect cacheWithPending initialSocket).1.fetched = [] := by
  decide

/-- C7 (amended): when the cache holds a job id, any existing snapshot —
regardless of its status — is accepted immediately as `jobData` with no
fetch issued and `loading` untouched; only when the snapshot is missing
does the effect set `loading = true` and issue a fetch for that job id. -/
theorem resume_from_cache_behavior (w : World) (s : SocketState) (j : String)
    (hid : w.storage.lastJobId = some j) :
    (∀ d, w.storage.lastJobData = some d →
      (mountEffect w s).1.frame.jobData = some d ∧
      (mountEffect w s).1.fetched = w.fetched ∧
      (mountEffect w s).1.frame.loading = w.frame.loading) ∧
    (w.storage.lastJobData = none →
      (mountEffect w s).1.frame.loading = true ∧
      (mountEffect w s).1.fetched = w.fetched ++ [j] ∧
      (mountEffect w s).1.frame.jobData = w.frame.jobData) := by
  constructor
  · intro d hd
    simp [mountEffect, getLastJobData, hid, hd, joinJobRoom]
  · intro hd
    simp [mountEffect, getLastJobData, hid, hd, joinJobRoom]

/-- C7 witness: the snapshot branch at a cached `J1` snapshot, and the
fetch branch at a cache holding only the id. -/
theorem resume_from_cache_behavior_witness :
    cacheWithPending.storage.lastJobId = some "J1" ∧
    cacheWithPending.storage.lastJobData = some pendingSnapshot ∧
    (mountEffect cacheWithPending initialSocket).1.frame.jobData =
      some pendingSnapshot ∧
    cacheIdOnly.storage.lastJobData = none ∧
    (mountEffect cacheIdOnly initialSocket).1.frame.loading = true ∧
    (mountEffect cacheIdOnly initialSocket).1.fetched =
      cacheIdOnly.fetched ++ ["J1"] :=
  ⟨rfl, rfl,
    ((resume_from_cache_behavior cacheWithPending initialSocket "J1" rfl).1
      pendingSnapshot rfl).1,
    rfl,
    ((resume_from_cache_behavior cacheIdOnly initialSocket "J1" rfl).2 rfl).1,
    ((resume_from_cache_behavior cacheIdOnly initialSocket "J1" rfl).2 rfl).2.1⟩
